import Mathlib

/-!
Verification of the libtock-rs CHERI userland syscall layer.

This file shallowly embeds the register codec (`src/platform/src/register.rs`),
the result-checking and syscall-issuing logic of the `Syscalls` facade
(`src/platform/src/syscalls_impl.rs`), the `Subscribe` guard and the `Upcall`
cell implementations (`src/platform/src/subscribe.rs`), and the safe
`CommandReturn` constructors (`src/unittest/src/command_return.rs`).

Machine integers are modelled as `Nat` with explicit `% 2^w` at the points
where the source truncates.  The target is 64-bit CHERI RISC-V, so `usize` is
64 bits wide.  Types that the repository pulls in from crates outside the
sources at hand (`kernel::cheri::cptr`, `libtock_platform`'s `ErrorCode`,
`return_variant`, `CommandReturn` accessors, `get_usizes_from_u64`, the
`share::scope` mechanism and the `syscall_class` selectors) are modelled from
the specification; each such definition carries a doc comment saying so.
-/

namespace LibtockCheri

/-- `2 ^ 32`: the modulus of the `u32` type. -/
def U32_MOD : Nat := 2 ^ 32

/-- `2 ^ 64`: the modulus of the `u64` type. -/
def U64_MOD : Nat := 2 ^ 64

/-- The modulus of `usize` on the 64-bit CHERI RISC-V target. -/
def USIZE_MOD : Nat := 2 ^ 64

-- -----------------------------------------------------------------------------
-- ErrorCode
-- -----------------------------------------------------------------------------

/-- Modelled from the spec: `libtock_platform`'s `ErrorCode` enumeration is not
under `src/`.  Section 6 of the spec describes it as "a fixed, kernel-defined
small enumeration (Fail, Busy, Off, Size, NoMem, etc.)" whose numeric
discriminants "must match the kernel's exactly"; the kernel-defined codes are
the TRD 104 values 1 through 13. -/
inductive ErrorCode
  | Fail
  | Busy
  | Already
  | Off
  | Reserve
  | Invalid
  | Size
  | Cancel
  | NoMem
  | NoSupport
  | NoDevice
  | Uninstalled
  | NoAck
deriving DecidableEq, Repr

/-- The numeric discriminant of an `ErrorCode` (`error_code as usize` /
`error_code as u32` in the source). -/
def ErrorCode.toNat : ErrorCode → Nat
  | .Fail => 1
  | .Busy => 2
  | .Already => 3
  | .Off => 4
  | .Reserve => 5
  | .Invalid => 6
  | .Size => 7
  | .Cancel => 8
  | .NoMem => 9
  | .NoSupport => 10
  | .NoDevice => 11
  | .Uninstalled => 12
  | .NoAck => 13

/-- Modelled from the spec: the fallible `u32 -> ErrorCode` conversion
(`TryFrom<u32> for ErrorCode`, not under `src/`).  Section 9 of the spec:
"map the small integer to the enumeration via an exhaustive match with a
default/fallback arm for out-of-range values". -/
def ErrorCode.fromU32? : Nat → Option ErrorCode
  | 1 => some .Fail
  | 2 => some .Busy
  | 3 => some .Already
  | 4 => some .Off
  | 5 => some .Reserve
  | 6 => some .Invalid
  | 7 => some .Size
  | 8 => some .Cancel
  | 9 => some .NoMem
  | 10 => some .NoSupport
  | 11 => some .NoDevice
  | 12 => some .Uninstalled
  | 13 => some .NoAck
  | _ => none

/-- Model of `unsafe { core::mem::transmute(x) }` from a `u32` to `ErrorCode`
(used by `check_result`).  The transmute is only defined on valid
discriminants; out-of-range values are undefined behavior in the source, which
the model collapses to `Fail`.  Theorems only evaluate it on valid codes. -/
def ErrorCode.transmuteFromU32 (n : Nat) : ErrorCode :=
  (ErrorCode.fromU32? n).getD .Fail

theorem ErrorCode.fromU32_toNat (e : ErrorCode) : ErrorCode.fromU32? e.toNat = some e := by
  cases e <;> rfl

theorem ErrorCode.toNat_lt_u32 (e : ErrorCode) : e.toNat < U32_MOD := by
  cases e <;> decide

theorem ErrorCode.toNat_mod_u32 (e : ErrorCode) : e.toNat % U32_MOD = e.toNat :=
  Nat.mod_eq_of_lt e.toNat_lt_u32

-- -----------------------------------------------------------------------------
-- cptr and Register
-- -----------------------------------------------------------------------------

/-- Modelled from the spec: `kernel::cheri::cptr` is not under `src/`.  Per
section 3 of the spec it is "a register-width value that may additionally carry
a hardware-enforced provenance/permission tag alongside its numeric address",
and "conversions to/from plain integers (`usize`, `u32`) are explicitly
lossy/truncating": converting an integer in yields an untagged value carrying
that address, converting out yields the address. -/
structure Cptr where
  addr : Nat
  tag : Bool
deriving DecidableEq, Repr

/-- Modelled from the spec: `impl From<usize> for cptr` — an integer becomes an
untagged capability whose address is the integer. -/
def Cptr.ofUsize (v : Nat) : Cptr := ⟨v, false⟩

/-- Modelled from the spec: `impl From<cptr> for usize` — the numeric address,
dropping the tag. -/
def Cptr.toUsize (c : Cptr) : Nat := c.addr

/-- `Register` wraps a `cptr` (`src/platform/src/register.rs`, line 14). -/
structure Register where
  reg : Cptr
deriving DecidableEq, Repr

/-- `impl From<usize> for Register` (`register.rs`, lines 32-36):
`Register(value.into())`. -/
def Register.ofUsize (v : Nat) : Register := ⟨Cptr.ofUsize v⟩

/-- `impl From<Register> for usize` (`register.rs`, lines 81-85):
`register.0.into()`. -/
def Register.toUsize (r : Register) : Nat := r.reg.toUsize

/-- `impl From<u32> for Register` (`register.rs`, lines 26-30):
`(value as usize).into()`.  The `% U32_MOD` encodes the `u32` domain of the
argument. -/
def Register.ofU32 (v : Nat) : Register := Register.ofUsize (v % U32_MOD)

/-- `Register::as_u32` (`register.rs`, lines 68-71): casts to `u32`,
truncating. -/
def Register.asU32 (r : Register) : Nat := r.toUsize % U32_MOD

/-- `impl TryFrom<Register> for u32` (`register.rs`, lines 109-116): fails if
the register's `usize` value exceeds `u32::MAX`. -/
def Register.tryAsU32 (r : Register) : Option Nat :=
  if r.toUsize < U32_MOD then some r.toUsize else none

-- -----------------------------------------------------------------------------
-- Return variants and syscall classes
-- -----------------------------------------------------------------------------

namespace return_variant

/-- Modelled from the spec: the `return_variant` constants of
`libtock_platform` are not under `src/`.  The values follow the TRD 104
return-variant tag table reproduced in section 6 of the spec; the comment in
`check_result` (`syscalls_impl.rs`, line 17) confirms `FAILURE_2_U32` has
value 2. -/
def FAILURE : Nat := 0

/-- Modelled from the spec: failure with one `u32` payload (TRD 104 value 1). -/
def FAILURE_U32 : Nat := 1

/-- Modelled from the spec: failure with two `u32` payloads (TRD 104 value 2). -/
def FAILURE_2_U32 : Nat := 2

/-- Modelled from the spec: failure with a `u64` payload (TRD 104 value 3). -/
def FAILURE_U64 : Nat := 3

/-- Modelled from the spec: success with no payload (TRD 104 value 128). -/
def SUCCESS : Nat := 128

/-- Modelled from the spec: success with one `u32` payload (TRD 104 value 129). -/
def SUCCESS_U32 : Nat := 129

/-- Modelled from the spec: success with two `u32` payloads (TRD 104 value 130). -/
def SUCCESS_2_U32 : Nat := 130

/-- Modelled from the spec: success with a `u64` payload (TRD 104 value 131). -/
def SUCCESS_U64 : Nat := 131

/-- Modelled from the spec: success with three `u32` payloads (TRD 104 value 132). -/
def SUCCESS_3_U32 : Nat := 132

/-- Modelled from the spec: success with a `u32` and a `u64` payload (TRD 104
value 133). -/
def SUCCESS_U32_U64 : Nat := 133

end return_variant

namespace syscall_class

/-- Modelled from the spec: the `syscall_class` selectors are not under
`src/`; section 6 lists the classes, whose TRD 104 selectors are
Yield 0, Subscribe 1, Command 2, Read-Write Allow 3, Read-Only Allow 4,
Memop 5, Exit 6. -/
def SUBSCRIBE : Nat := 1

/-- Modelled from the spec: the Command syscall class selector. -/
def COMMAND : Nat := 2

/-- Modelled from the spec: the Read-Write Allow syscall class selector. -/
def ALLOW_RW : Nat := 3

/-- Modelled from the spec: the Read-Only Allow syscall class selector. -/
def ALLOW_RO : Nat := 4

end syscall_class

-- -----------------------------------------------------------------------------
-- check_result (syscalls_impl.rs, lines 10-35)
-- -----------------------------------------------------------------------------

/-- `check_result` (`src/platform/src/syscalls_impl.rs`, lines 10-35): reads
the return variant from `r0` as a `u32`, and returns `Err` with the
`ErrorCode` transmuted from `r1` exactly when the variant equals
`return_variant::FAILURE`; every other variant yields `Ok(())`. -/
def check_result (r0 r1 : Register) : Except ErrorCode Unit :=
  if r0.asU32 = return_variant.FAILURE then
    .error (ErrorCode.transmuteFromU32 r1.asU32)
  else
    .ok ()

-- -----------------------------------------------------------------------------
-- Subscribe: post-syscall result handling (syscalls_impl.rs, lines 104-141)
-- -----------------------------------------------------------------------------

/-- The result-handling tail of `Syscalls::subscribe`'s `inner` function
(`src/platform/src/syscalls_impl.rs`, lines 119-141), parameterized by the two
result registers the raw Subscribe syscall produced.  Returns the value
`inner` returns together with the list of
`CONFIG::returned_nonnull_upcall(driver_num, subscribe_num)` invocations it
performs. -/
def subscribeCheck (driver_num subscribe_num : Nat) (r0 r1 : Register) :
    Except ErrorCode Unit × List (Nat × Nat) :=
  match check_result r0 r1 with
  | .error e => (.error e, [])
  | .ok () =>
    let returned_upcall : Nat := r1.toUsize
    if returned_upcall ≠ 0 then
      (.ok (), [(driver_num, subscribe_num)])
    else
      (.ok (), [])

-- -----------------------------------------------------------------------------
-- Syscall events: unsubscribe, Drop for Subscribe, share::scope
-- -----------------------------------------------------------------------------

/-- An observable event of the embedded execution: a 4-register syscall being
issued (with its class selector and argument registers), or the end of a
`share::scope` region (the point where the `'share` lifetime borrowing the
upcall object ends). -/
inductive Event
  | syscall4 (cls : Nat) (args : List Register)
  | scopeEnd
deriving DecidableEq, Repr

/-- `Syscalls::unsubscribe` (`src/platform/src/syscalls_impl.rs`, lines
153-165): issues one Subscribe-class syscall with the given driver and
subscribe numbers and the null upcall `(0, 0)`.  The model returns the list of
syscalls issued. -/
def unsubscribe (driver_num subscribe_num : Nat) : List Event :=
  [Event.syscall4 syscall_class.SUBSCRIBE
    [Register.ofU32 driver_num, Register.ofU32 subscribe_num,
     Register.ofUsize 0, Register.ofUsize 0]]

/-- `impl Drop for Subscribe` (`src/platform/src/subscribe.rs`, lines 43-49):
dropping a `Subscribe<'share, S, DRIVER_NUM, SUBSCRIBE_NUM>` runs
`S::unsubscribe(DRIVER_NUM, SUBSCRIBE_NUM)`. -/
def Subscribe.dropEvents (DRIVER_NUM SUBSCRIBE_NUM : Nat) : List Event :=
  unsubscribe DRIVER_NUM SUBSCRIBE_NUM

/-- Modelled from the spec: the `share::scope` mechanism is not under `src/`.
Per spec sections 3 and 5, the guard's scope runs its body, then the guard is
destroyed (running its `Drop`), and only then does the `'share` lifetime
borrowing the upcall object end.  The model emits the body's events, then the
guard's drop events, then the scope-end marker. -/
def shareScopeEvents (body : List Event) (DRIVER_NUM SUBSCRIBE_NUM : Nat) : List Event :=
  body ++ Subscribe.dropEvents DRIVER_NUM SUBSCRIBE_NUM ++ [Event.scopeEnd]

-- -----------------------------------------------------------------------------
-- unallow_rw / unallow_ro (syscalls_impl.rs, lines 243-256 and 309-322)
-- -----------------------------------------------------------------------------

/-- A 4-register syscall invocation: class selector plus argument registers. -/
structure SyscallCall where
  cls : Nat
  args : List Register
deriving DecidableEq, Repr

/-- `Syscalls::unallow_rw` (`src/platform/src/syscalls_impl.rs`, lines
243-256), with the kernel's 4-register response supplied by the oracle `K`.
Returns the function's result together with the list of syscalls issued. -/
def unallow_rw (K : SyscallCall → Register × Register × Register × Register)
    (driver_num buffer_num : Nat) : Except ErrorCode Unit × List SyscallCall :=
  let call : SyscallCall :=
    ⟨syscall_class.ALLOW_RW,
     [Register.ofU32 driver_num, Register.ofU32 buffer_num,
      Register.ofUsize 0, Register.ofUsize 0]⟩
  let (r0, r1, _, _) := K call
  (check_result r0 r1, [call])

/-- `Syscalls::unallow_ro` (`src/platform/src/syscalls_impl.rs`, lines
309-322), with the kernel's 4-register response supplied by the oracle `K`.
Returns the function's result together with the list of syscalls issued. -/
def unallow_ro (K : SyscallCall → Register × Register × Register × Register)
    (driver_num buffer_num : Nat) : Except ErrorCode Unit × List SyscallCall :=
  let call : SyscallCall :=
    ⟨syscall_class.ALLOW_RO,
     [Register.ofU32 driver_num, Register.ofU32 buffer_num,
      Register.ofUsize 0, Register.ofUsize 0]⟩
  let (r0, r1, _, _) := K call
  (check_result r0 r1, [call])

-- -----------------------------------------------------------------------------
-- 64-bit split/join
-- -----------------------------------------------------------------------------

/-- Modelled from the spec: `libtock_platform::command_return`'s
`get_usizes_from_u64` is not under `src/`.  Per spec section 4.2, 64-bit
payloads travel as "(low, high) half-words": the low 32 bits and the high 32
bits of the `u64`, each widened to `usize`. -/
def get_usizes_from_u64 (v : Nat) : Nat × Nat :=
  (v % U32_MOD, v / U32_MOD % U32_MOD)

/-- Modelled from the spec: the inverse join used by the `CommandReturn`
accessors — reconstructs a `u64` from the (low, high) half-words held in two
registers, reading the low 32 bits of each. -/
def get_u64_from_usizes (lsb msb : Nat) : Nat :=
  lsb % U32_MOD + msb % U32_MOD * U32_MOD

theorem u64_join_split_eq (v : Nat) (hv : v < U64_MOD) :
    get_u64_from_usizes (v % U32_MOD) (v / U32_MOD % U32_MOD) = v := by
  simp only [get_u64_from_usizes, U32_MOD, U64_MOD] at *
  omega

-- -----------------------------------------------------------------------------
-- CommandReturn (constructors: src/unittest/src/command_return.rs)
-- -----------------------------------------------------------------------------

/-- The decoded 4-register result of a Command syscall: the return-variant
tag read from register 0, and the three payload registers, each a `usize`. -/
structure CommandReturn where
  return_variant : Nat
  r1 : Nat
  r2 : Nat
  r3 : Nat
deriving DecidableEq, Repr

/-- `CommandReturn::new(return_variant, r1, r2, r3)`. -/
def CommandReturn.new (v r1 r2 r3 : Nat) : CommandReturn := ⟨v, r1, r2, r3⟩

/-- `failure` (`src/unittest/src/command_return.rs`, lines 6-10). -/
def failure (error_code : ErrorCode) : CommandReturn :=
  CommandReturn.new return_variant.FAILURE error_code.toNat 0 0

/-- `failure_u32` (`command_return.rs`, lines 12-23). -/
def failure_u32 (error_code : ErrorCode) (value : Nat) : CommandReturn :=
  CommandReturn.new return_variant.FAILURE_U32 error_code.toNat value 0

/-- `failure_2_u32` (`command_return.rs`, lines 25-36). -/
def failure_2_u32 (error_code : ErrorCode) (value0 value1 : Nat) : CommandReturn :=
  CommandReturn.new return_variant.FAILURE_2_U32 error_code.toNat value0 value1

/-- `failure_u64` (`command_return.rs`, lines 38-45). -/
def failure_u64 (error_code : ErrorCode) (value : Nat) : CommandReturn :=
  CommandReturn.new return_variant.FAILURE_U64 error_code.toNat
    (get_usizes_from_u64 value).1 (get_usizes_from_u64 value).2

/-- `success` (`command_return.rs`, lines 47-51). -/
def success : CommandReturn :=
  CommandReturn.new return_variant.SUCCESS 0 0 0

/-- `success_u32` (`command_return.rs`, lines 53-57). -/
def success_u32 (value : Nat) : CommandReturn :=
  CommandReturn.new return_variant.SUCCESS_U32 value 0 0

/-- `success_2_u32` (`command_return.rs`, lines 59-70). -/
def success_2_u32 (value0 value1 : Nat) : CommandReturn :=
  CommandReturn.new return_variant.SUCCESS_2_U32 value0 value1 0

/-- `success_u64` (`command_return.rs`, lines 72-79). -/
def success_u64 (value : Nat) : CommandReturn :=
  CommandReturn.new return_variant.SUCCESS_U64
    (get_usizes_from_u64 value).1 (get_usizes_from_u64 value).2 0

/-- `success_3_u32` (`command_return.rs`, lines 81-92). -/
def success_3_u32 (value0 value1 value2 : Nat) : CommandReturn :=
  CommandReturn.new return_variant.SUCCESS_3_U32 value0 value1 value2

/-- `success_u32_u64` (`command_return.rs`, lines 94-101). -/
def success_u32_u64 (value0 value1 : Nat) : CommandReturn :=
  CommandReturn.new return_variant.SUCCESS_U32_U64 value0
    (get_usizes_from_u64 value1).1 (get_usizes_from_u64 value1).2

/-- Modelled from the spec: the `CommandReturn` accessors of
`libtock_platform` are not under `src/`.  Spec section 4.2: "An accessor for
variant V returns the payload iff the stored tag equals V exactly; any other
tag yields none."  `get_failure` decodes register 1 as an `ErrorCode`. -/
def CommandReturn.get_failure (c : CommandReturn) : Option ErrorCode :=
  if c.return_variant = return_variant.FAILURE then
    ErrorCode.fromU32? (c.r1 % U32_MOD)
  else none

/-- Modelled from the spec: accessor for the failure-with-one-`u32` variant. -/
def CommandReturn.get_failure_u32 (c : CommandReturn) : Option (ErrorCode × Nat) :=
  if c.return_variant = return_variant.FAILURE_U32 then
    (ErrorCode.fromU32? (c.r1 % U32_MOD)).map (fun e => (e, c.r2 % U32_MOD))
  else none

/-- Modelled from the spec: accessor for the failure-with-two-`u32` variant. -/
def CommandReturn.get_failure_2_u32 (c : CommandReturn) : Option (ErrorCode × Nat × Nat) :=
  if c.return_variant = return_variant.FAILURE_2_U32 then
    (ErrorCode.fromU32? (c.r1 % U32_MOD)).map (fun e => (e, c.r2 % U32_MOD, c.r3 % U32_MOD))
  else none

/-- Modelled from the spec: accessor for the failure-with-`u64` variant;
registers 2 and 3 are joined as (low, high) half-words. -/
def CommandReturn.get_failure_u64 (c : CommandReturn) : Option (ErrorCode × Nat) :=
  if c.return_variant = return_variant.FAILURE_U64 then
    (ErrorCode.fromU32? (c.r1 % U32_MOD)).map (fun e => (e, get_u64_from_usizes c.r2 c.r3))
  else none

/-- Modelled from the spec: `is_success` holds iff the stored tag is exactly
the plain success variant. -/
def CommandReturn.is_success (c : CommandReturn) : Bool :=
  c.return_variant == return_variant.SUCCESS

/-- Modelled from the spec: accessor for the success-with-one-`u32` variant. -/
def CommandReturn.get_success_u32 (c : CommandReturn) : Option Nat :=
  if c.return_variant = return_variant.SUCCESS_U32 then some (c.r1 % U32_MOD)
  else none

/-- Modelled from the spec: accessor for the success-with-two-`u32` variant. -/
def CommandReturn.get_success_2_u32 (c : CommandReturn) : Option (Nat × Nat) :=
  if c.return_variant = return_variant.SUCCESS_2_U32 then
    some (c.r1 % U32_MOD, c.r2 % U32_MOD)
  else none

/-- Modelled from the spec: accessor for the success-with-three-`u32`
variant. -/
def CommandReturn.get_success_3_u32 (c : CommandReturn) : Option (Nat × Nat × Nat) :=
  if c.return_variant = return_variant.SUCCESS_3_U32 then
    some (c.r1 % U32_MOD, c.r2 % U32_MOD, c.r3 % U32_MOD)
  else none

/-- Modelled from the spec: accessor for the success-with-`u64` variant;
registers 1 and 2 are joined as (low, high) half-words. -/
def CommandReturn.get_success_u64 (c : CommandReturn) : Option Nat :=
  if c.return_variant = return_variant.SUCCESS_U64 then
    some (get_u64_from_usizes c.r1 c.r2)
  else none

/-- Modelled from the spec: accessor for the success-with-`u32`-and-`u64`
variant. -/
def CommandReturn.get_success_u32_u64 (c : CommandReturn) : Option (Nat × Nat) :=
  if c.return_variant = return_variant.SUCCESS_U32_U64 then
    some (c.r1 % U32_MOD, get_u64_from_usizes c.r2 c.r3)
  else none

-- -----------------------------------------------------------------------------
-- Upcall implementations (src/platform/src/subscribe.rs, lines 91-146)
-- -----------------------------------------------------------------------------

/-- A `core::cell::Cell`, modelled by its content; `set` replaces the
content and `get` reads it. -/
structure Cell (α : Type) where
  value : α
deriving DecidableEq, Repr

/-- `Cell::set`. -/
def Cell.set {α : Type} (_c : Cell α) (v : α) : Cell α := ⟨v⟩

/-- `Cell::get`. -/
def Cell.get {α : Type} (c : Cell α) : α := c.value

/-- `impl Upcall<AnyId> for Cell<bool>` (`subscribe.rs`, lines 91-95):
`self.set(true)`, ignoring all three arguments. -/
def upcall_bool (c : Cell Bool) (_arg0 _arg1 _arg2 : Nat) : Cell Bool :=
  c.set true

/-- `impl Upcall<AnyId> for Cell<Option<()>>` (`subscribe.rs`, lines
100-104): `self.set(Some(()))`. -/
def upcall_opt_unit (c : Cell (Option Unit)) (_arg0 _arg1 _arg2 : Nat) :
    Cell (Option Unit) :=
  c.set (some ())

/-- `impl Upcall<AnyId> for Cell<Option<(usize,)>>` (`subscribe.rs`, lines
107-111): stores `Some((arg0,))`. -/
def upcall_usize1 (c : Cell (Option Nat)) (arg0 _arg1 _arg2 : Nat) :
    Cell (Option Nat) :=
  c.set (some arg0)

/-- `impl Upcall<AnyId> for Cell<Option<(usize, usize)>>` (`subscribe.rs`,
lines 114-118): stores `Some((arg0, arg1))`. -/
def upcall_usize2 (c : Cell (Option (Nat × Nat))) (arg0 arg1 _arg2 : Nat) :
    Cell (Option (Nat × Nat)) :=
  c.set (some (arg0, arg1))

/-- `impl Upcall<AnyId> for Cell<Option<(usize, usize, usize)>>`
(`subscribe.rs`, lines 121-125): stores `Some((arg0, arg1, arg2))`. -/
def upcall_usize3 (c : Cell (Option (Nat × Nat × Nat))) (arg0 arg1 arg2 : Nat) :
    Cell (Option (Nat × Nat × Nat)) :=
  c.set (some (arg0, arg1, arg2))

/-- `impl Upcall<AnyId> for Cell<Option<(u32,)>>` (`subscribe.rs`, lines
128-132): stores `Some((arg0 as u32,))`. -/
def upcall_u32_1 (c : Cell (Option Nat)) (arg0 _arg1 _arg2 : Nat) :
    Cell (Option Nat) :=
  c.set (some (arg0 % U32_MOD))

/-- `impl Upcall<AnyId> for Cell<Option<(u32, u32)>>` (`subscribe.rs`, lines
135-139): stores `Some((arg0 as u32, arg1 as u32))`. -/
def upcall_u32_2 (c : Cell (Option (Nat × Nat))) (arg0 arg1 _arg2 : Nat) :
    Cell (Option (Nat × Nat)) :=
  c.set (some (arg0 % U32_MOD, arg1 % U32_MOD))

/-- `impl Upcall<AnyId> for Cell<Option<(u32, u32, u32)>>` (`subscribe.rs`,
lines 142-146): stores `Some((arg0 as u32, arg1 as u32, arg2 as u32))`. -/
def upcall_u32_3 (c : Cell (Option (Nat × Nat × Nat))) (arg0 arg1 arg2 : Nat) :
    Cell (Option (Nat × Nat × Nat)) :=
  c.set (some (arg0 % U32_MOD, arg1 % U32_MOD, arg2 % U32_MOD))

-- -----------------------------------------------------------------------------
-- UpcallResult (src/platform/src/subscribe.rs, lines 149-203)
-- -----------------------------------------------------------------------------

/-- `StandardResult = Cell<Option<(usize,)>>` (`subscribe.rs`, line 149). -/
abbrev StandardResult := Cell (Option Nat)

/-- `StandardResultArg1 = Cell<Option<(usize, usize)>>` (`subscribe.rs`,
line 150). -/
abbrev StandardResultArg1 := Cell (Option (Nat × Nat))

/-- `StandardResultArg2 = Cell<Option<(usize, usize, usize)>>`
(`subscribe.rs`, line 151). -/
abbrev StandardResultArg2 := Cell (Option (Nat × Nat × Nat))

/-- The status-decoding step shared by the `implement_result!` expansions
(`subscribe.rs`, lines 180-189): `0` is success; any other first element is
truncated to `u32` and converted with `try_into().unwrap_or(ErrorCode::Fail)`. -/
def decodeStatus {α : Type} (x : Nat) (payload : α) : Except ErrorCode α :=
  if x = 0 then .ok payload
  else .error ((ErrorCode.fromU32? (x % U32_MOD)).getD .Fail)

/-- `UpcallResult::upcall_result` for `StandardResult`
(`implement_result!(StandardResult, (), {}, ())`, `subscribe.rs`, line 201). -/
def StandardResult.upcall_result (c : StandardResult) :
    Option (Except ErrorCode Unit) :=
  match c.get with
  | none => none
  | some x => some (decodeStatus x ())

/-- `UpcallResult::upcall_result` for `StandardResultArg1`
(`implement_result!(StandardResultArg1, usize, {y}, y)`, `subscribe.rs`,
line 202). -/
def StandardResultArg1.upcall_result (c : StandardResultArg1) :
    Option (Except ErrorCode Nat) :=
  match c.get with
  | none => none
  | some (x, y) => some (decodeStatus x y)

/-- `UpcallResult::upcall_result` for `StandardResultArg2`
(`implement_result!(StandardResultArg2, (usize, usize), {y, z}, (y, z))`,
`subscribe.rs`, line 203). -/
def StandardResultArg2.upcall_result (c : StandardResultArg2) :
    Option (Except ErrorCode (Nat × Nat)) :=
  match c.get with
  | none => none
  | some (x, y, z) => some (decodeStatus x (y, z))

-- -----------------------------------------------------------------------------
-- Theorems
-- -----------------------------------------------------------------------------

/-- C4: for every `x: usize`, constructing a `Register` from `x`
(`From<usize> for Register`) and converting that `Register` back to `usize`
(`From<Register> for usize`) yields exactly `x`. -/
theorem register_usize_round_trip (x : Nat) (hx : x < USIZE_MOD) :
    (Register.ofUsize x).toUsize = x := rfl

theorem register_usize_round_trip_witness :
    12345 < USIZE_MOD ∧ (Register.ofUsize 12345).toUsize = 12345 :=
  ⟨by decide, register_usize_round_trip 12345 (by decide)⟩

/-- C7: for `usize` values stored in a `Register` that exceed `u32::MAX`, the
fallible `TryFrom<Register> for u32` conversion returns an error while the
infallible `Register::as_u32` truncates to the low 32 bits; for values at most
`u32::MAX` both return the value exactly. -/
theorem register_u32_conversions (x : Nat) (hx : x < USIZE_MOD) :
    (U32_MOD - 1 < x →
      (Register.ofUsize x).tryAsU32 = none
      ∧ (Register.ofUsize x).asU32 = x % U32_MOD)
    ∧ (x ≤ U32_MOD - 1 →
      (Register.ofUsize x).tryAsU32 = some x
      ∧ (Register.ofUsize x).asU32 = x) := by
  have htou : (Register.ofUsize x).toUsize = x := rfl
  constructor
  · intro h
    have hge : ¬x < U32_MOD := by
      simp only [U32_MOD] at h ⊢
      omega
    exact ⟨by simp [Register.tryAsU32, htou, hge], rfl⟩
  · intro h
    have hlt : x < U32_MOD := by
      simp only [U32_MOD] at h ⊢
      omega
    exact ⟨by simp [Register.tryAsU32, htou, hlt],
      by simp [Register.asU32, htou, Nat.mod_eq_of_lt hlt]⟩

theorem register_u32_conversions_witness :
    ((Register.ofUsize (2 ^ 32 + 7)).tryAsU32 = none
      ∧ (Register.ofUsize (2 ^ 32 + 7)).asU32 = (2 ^ 32 + 7) % U32_MOD)
    ∧ ((Register.ofUsize 9).tryAsU32 = some 9
      ∧ (Register.ofUsize 9).asU32 = 9) :=
  ⟨(register_u32_conversions (2 ^ 32 + 7) (by decide)).1 (by decide),
   (register_u32_conversions 9 (by decide)).2 (by decide)⟩

/-- C6: for every `v: u64`, splitting `v` into two register-sized halves with
`get_usizes_from_u64` and rejoining the halves recovers exactly `v`. -/
theorem u64_split_join (v : Nat) (hv : v < U64_MOD) :
    get_u64_from_usizes (get_usizes_from_u64 v).1 (get_usizes_from_u64 v).2 = v := by
  simpa [get_usizes_from_u64] using u64_join_split_eq v hv

theorem u64_split_join_witness :
    get_u64_from_usizes (get_usizes_from_u64 0).1 (get_usizes_from_u64 0).2 = 0
    ∧ get_u64_from_usizes (get_usizes_from_u64 (2 ^ 64 - 1)).1
        (get_usizes_from_u64 (2 ^ 64 - 1)).2 = 2 ^ 64 - 1
    ∧ get_u64_from_usizes (get_usizes_from_u64 (2 ^ 32)).1
        (get_usizes_from_u64 (2 ^ 32)).2 = 2 ^ 32
    ∧ get_u64_from_usizes (get_usizes_from_u64 (3 * 2 ^ 32)).1
        (get_usizes_from_u64 (3 * 2 ^ 32)).2 = 3 * 2 ^ 32 :=
  ⟨u64_split_join 0 (by decide), u64_split_join (2 ^ 64 - 1) (by decide),
   u64_split_join (2 ^ 32) (by decide), u64_split_join (3 * 2 ^ 32) (by decide)⟩

/-- C2: dropping a `Subscribe` guard parameterized by `(DRIVER_NUM,
SUBSCRIBE_NUM)` issues exactly one unsubscribe call — one Subscribe-class
syscall with that exact pair and the null upcall — and within a share scope
this happens before the scope end (the point where the `'share` lifetime
borrowing the upcall object ends). -/
theorem subscribe_drop_unsubscribes (d n : Nat) :
    Subscribe.dropEvents d n =
      [Event.syscall4 syscall_class.SUBSCRIBE
        [Register.ofU32 d, Register.ofU32 n, Register.ofUsize 0, Register.ofUsize 0]]
    ∧ ∀ body : List Event,
        shareScopeEvents body d n =
          body
          ++ [Event.syscall4 syscall_class.SUBSCRIBE
               [Register.ofU32 d, Register.ofU32 n, Register.ofUsize 0, Register.ofUsize 0]]
          ++ [Event.scopeEnd] :=
  ⟨rfl, fun _ => rfl⟩

/-- C8: `unallow_rw` and `unallow_ro` each issue exactly one Allow syscall of
the corresponding class whose buffer-address and buffer-length argument
registers are both exactly 0, resetting the kernel-visible slot to
(address 0, length 0). -/
theorem unallow_resets_slot_to_zero
    (K : SyscallCall → Register × Register × Register × Register) (d b : Nat) :
    (unallow_rw K d b).2 =
      [⟨syscall_class.ALLOW_RW,
        [Register.ofU32 d, Register.ofU32 b, Register.ofUsize 0, Register.ofUsize 0]⟩]
    ∧ (unallow_ro K d b).2 =
      [⟨syscall_class.ALLOW_RO,
        [Register.ofU32 d, Register.ofU32 b, Register.ofUsize 0, Register.ofUsize 0]⟩]
    ∧ (Register.ofUsize 0).toUsize = 0 :=
  ⟨rfl, rfl, rfl⟩

/-- C9: invoking the `Cell<Option<...>>` sink upcalls stores `Some` of exactly
the first 0, 1, 2, or 3 arguments respectively (truncated to `u32` for the
`u32`-tuple variants), and invoking the `Cell<bool>` upcall sets the cell to
`true` regardless of the arguments. -/
theorem upcall_cells_store_args (cb : Cell Bool) (cu : Cell (Option Unit))
    (c1 : Cell (Option Nat)) (c2 : Cell (Option (Nat × Nat)))
    (c3 : Cell (Option (Nat × Nat × Nat)))
    (d1 : Cell (Option Nat)) (d2 : Cell (Option (Nat × Nat)))
    (d3 : Cell (Option (Nat × Nat × Nat))) (a0 a1 a2 : Nat) :
    (upcall_bool cb a0 a1 a2).get = true
    ∧ (upcall_opt_unit cu a0 a1 a2).get = some ()
    ∧ (upcall_usize1 c1 a0 a1 a2).get = some a0
    ∧ (upcall_usize2 c2 a0 a1 a2).get = some (a0, a1)
    ∧ (upcall_usize3 c3 a0 a1 a2).get = some (a0, a1, a2)
    ∧ (upcall_u32_1 d1 a0 a1 a2).get = some (a0 % U32_MOD)
    ∧ (upcall_u32_2 d2 a0 a1 a2).get = some (a0 % U32_MOD, a1 % U32_MOD)
    ∧ (upcall_u32_3 d3 a0 a1 a2).get =
        some (a0 % U32_MOD, a1 % U32_MOD, a2 % U32_MOD) :=
  ⟨rfl, rfl, rfl, rfl, rfl, rfl, rfl, rfl⟩

/-- C1 counterexample: a 2-register result whose tag is the
Failure-with-2-values variant (TRD 104 value 2) carrying `ErrorCode::Busy` in
the second register is NOT propagated as an `Err` by `check_result`: the check
compares the tag against the plain `FAILURE` variant only, so this result is
treated as success and yields `Ok(())`. -/
theorem check_result_failure_2_u32_counterexample :
    (Register.ofUsize return_variant.FAILURE_2_U32).asU32 = return_variant.FAILURE_2_U32
    ∧ return_variant.FAILURE_2_U32 ≠ return_variant.FAILURE
    ∧ check_result (Register.ofUsize return_variant.FAILURE_2_U32)
        (Register.ofUsize ErrorCode.Busy.toNat) = .ok () :=
  ⟨rfl, by decide, rfl⟩

/-- C1 (amended): `check_result` treats the 2-register result as a failure
exactly when the tag read from the first register equals the plain `FAILURE`
variant, and then propagates the `ErrorCode` held in the second register to
the caller as an `Err`; every other tag — including Failure-with-2-values —
yields `Ok(())`. -/
theorem check_result_propagates_plain_failure (r0 r1 : Register) (e : ErrorCode)
    (h1 : r1.asU32 = e.toNat) :
    (r0.asU32 = return_variant.FAILURE → check_result r0 r1 = .error e)
    ∧ (r0.asU32 ≠ return_variant.FAILURE → check_result r0 r1 = .ok ()) := by
  constructor
  · intro h
    simp [check_result, h, ErrorCode.transmuteFromU32, h1, ErrorCode.fromU32_toNat]
  · intro h
    simp [check_result, h]

theorem check_result_propagates_plain_failure_witness :
    check_result (Register.ofUsize 0) (Register.ofUsize ErrorCode.Busy.toNat)
      = .error ErrorCode.Busy :=
  (check_result_propagates_plain_failure (Register.ofUsize 0)
    (Register.ofUsize ErrorCode.Busy.toNat) ErrorCode.Busy rfl).1 rfl

/-- C3: for a Subscribe call whose raw syscall result is a success (tag
Success-with-2-values), the post-syscall logic invokes
`Config::returned_nonnull_upcall` exactly once with the call's driver and
subscribe numbers when the second result register (the previous callback's
data address) is nonzero, and still returns `Ok(())`; when that register is
zero the hook is not invoked. -/
theorem subscribe_nonnull_upcall_hook (d n : Nat) (r0 r1 : Register)
    (hsucc : r0.asU32 = return_variant.SUCCESS_2_U32) :
    (r1.toUsize ≠ 0 → subscribeCheck d n r0 r1 = (.ok (), [(d, n)]))
    ∧ (r1.toUsize = 0 → subscribeCheck d n r0 r1 = (.ok (), [])) := by
  have hok : check_result r0 r1 = .ok () := by
    simp [check_result, hsucc, return_variant.SUCCESS_2_U32, return_variant.FAILURE]
  constructor <;> intro h <;> simp [subscribeCheck, hok, h]

theorem subscribe_nonnull_upcall_hook_witness :
    subscribeCheck 1 2 (Register.ofUsize 130) (Register.ofUsize 7) = (.ok (), [(1, 2)])
    ∧ subscribeCheck 1 2 (Register.ofUsize 130) (Register.ofUsize 0) = (.ok (), []) :=
  ⟨(subscribe_nonnull_upcall_hook 1 2 (Register.ofUsize 130)
      (Register.ofUsize 7) rfl).1 (by decide),
   (subscribe_nonnull_upcall_hook 1 2 (Register.ofUsize 130)
      (Register.ofUsize 0) rfl).2 rfl⟩

/-- C10 counterexample: the stored tuple `(2^32 + 4,)` has a nonzero first
element that is not the discriminant of any valid `ErrorCode`, yet
`upcall_result` returns `Some(Err(ErrorCode::Off))`, not
`Some(Err(ErrorCode::Fail))`: the code truncates the element to `u32` (low 32
bits give 4, the discriminant of `Off`) before converting. -/
theorem upcall_result_truncation_counterexample :
    ((2 : Nat) ^ 32 + 4 ≠ 0)
    ∧ ErrorCode.fromU32? (2 ^ 32 + 4) = none
    ∧ StandardResult.upcall_result ⟨some (2 ^ 32 + 4)⟩ = some (.error ErrorCode.Off)
    ∧ ErrorCode.Off ≠ ErrorCode.Fail :=
  ⟨by decide, rfl, rfl, by decide⟩

/-- C10 (amended): `upcall_result` returns `None` when no tuple is stored and
`Some(Ok(payload))` when the first element is 0; when the first element is
nonzero it is truncated to its low 32 bits before decoding: if the truncated
value is not the discriminant of any valid `ErrorCode` the result is
`Some(Err(ErrorCode::Fail))`, and if it is the discriminant of `e` the result
is `Some(Err(e))`. -/
theorem upcall_result_decode (x y z : Nat) (e : ErrorCode) :
    (StandardResult.upcall_result ⟨none⟩ = none
      ∧ StandardResultArg1.upcall_result ⟨none⟩ = none
      ∧ StandardResultArg2.upcall_result ⟨none⟩ = none)
    ∧ (StandardResult.upcall_result ⟨some 0⟩ = some (.ok ())
      ∧ StandardResultArg1.upcall_result ⟨some (0, y)⟩ = some (.ok y)
      ∧ StandardResultArg2.upcall_result ⟨some (0, y, z)⟩ = some (.ok (y, z)))
    ∧ (x ≠ 0 → ErrorCode.fromU32? (x % U32_MOD) = none →
        StandardResult.upcall_result ⟨some x⟩ = some (.error ErrorCode.Fail)
        ∧ StandardResultArg1.upcall_result ⟨some (x, y)⟩ = some (.error ErrorCode.Fail)
        ∧ StandardResultArg2.upcall_result ⟨some (x, y, z)⟩ = some (.error ErrorCode.Fail))
    ∧ (ErrorCode.fromU32? (x % U32_MOD) = some e →
        StandardResult.upcall_result ⟨some x⟩ = some (.error e)
        ∧ StandardResultArg1.upcall_result ⟨some (x, y)⟩ = some (.error e)
        ∧ StandardResultArg2.upcall_result ⟨some (x, y, z)⟩ = some (.error e)) := by
  refine ⟨⟨rfl, rfl, rfl⟩, ⟨rfl, rfl, rfl⟩, ?_, ?_⟩
  · intro hx hnone
    refine ⟨?_, ?_, ?_⟩ <;>
      simp [StandardResult.upcall_result, StandardResultArg1.upcall_result,
        StandardResultArg2.upcall_result, Cell.get, decodeStatus, hx, hnone]
  · intro hsome
    have hx : x ≠ 0 := by
      intro h0
      rw [h0] at hsome
      rw [show ErrorCode.fromU32? (0 % U32_MOD) = none from rfl] at hsome
      cases hsome
    refine ⟨?_, ?_, ?_⟩ <;>
      simp [StandardResult.upcall_result, StandardResultArg1.upcall_result,
        StandardResultArg2.upcall_result, Cell.get, decodeStatus, hx, hsome]

theorem upcall_result_decode_witness :
    StandardResult.upcall_result ⟨some (2 ^ 32)⟩ = some (.error ErrorCode.Fail)
    ∧ StandardResultArg1.upcall_result ⟨some (7, 5)⟩ = some (.error ErrorCode.Size) :=
  ⟨((upcall_result_decode (2 ^ 32) 5 6 ErrorCode.Fail).2.2.1 (by decide) (by decide)).1,
   ((upcall_result_decode 7 5 6 ErrorCode.Size).2.2.2 (by decide)).2.1⟩

/-- C5: for each of the 10 `CommandReturn` constructors and all payload
values, the accessor matching the constructed variant returns exactly the
constructed payload (`is_success` returns `true` for the bare `success`
variant), and every non-matching accessor returns `none` (`is_success`
returns `false` on every other variant). -/
theorem commandreturn_decode_matrix (ec : ErrorCode) (v v2 v3 w : Nat)
    (hv : v < U32_MOD) (hv2 : v2 < U32_MOD) (hv3 : v3 < U32_MOD) (hw : w < U64_MOD) :
    (success.get_failure = none
      ∧ success.get_failure_u32 = none
      ∧ success.get_failure_2_u32 = none
      ∧ success.get_failure_u64 = none
      ∧ success.is_success = true
      ∧ success.get_success_u32 = none
      ∧ success.get_success_2_u32 = none
      ∧ success.get_success_3_u32 = none
      ∧ success.get_success_u64 = none
      ∧ success.get_success_u32_u64 = none)
    ∧ ((success_u32 v).get_failure = none
      ∧ (success_u32 v).get_failure_u32 = none
      ∧ (success_u32 v).get_failure_2_u32 = none
      ∧ (success_u32 v).get_failure_u64 = none
      ∧ (success_u32 v).is_success = false
      ∧ (success_u32 v).get_success_u32 = some v
      ∧ (success_u32 v).get_success_2_u32 = none
      ∧ (success_u32 v).get_success_3_u32 = none
      ∧ (success_u32 v).get_success_u64 = none
      ∧ (success_u32 v).get_success_u32_u64 = none)
    ∧ ((success_2_u32 v v2).get_failure = none
      ∧ (success_2_u32 v v2).get_failure_u32 = none
      ∧ (success_2_u32 v v2).get_failure_2_u32 = none
      ∧ (success_2_u32 v v2).get_failure_u64 = none
      ∧ (success_2_u32 v v2).is_success = false
      ∧ (success_2_u32 v v2).get_success_u32 = none
      ∧ (success_2_u32 v v2).get_success_2_u32 = some (v, v2)
      ∧ (success_2_u32 v v2).get_success_3_u32 = none
      ∧ (success_2_u32 v v2).get_success_u64 = none
      ∧ (success_2_u32 v v2).get_success_u32_u64 = none)
    ∧ ((success_3_u32 v v2 v3).get_failure = none
      ∧ (success_3_u32 v v2 v3).get_failure_u32 = none
      ∧ (success_3_u32 v v2 v3).get_failure_2_u32 = none
      ∧ (success_3_u32 v v2 v3).get_failure_u64 = none
      ∧ (success_3_u32 v v2 v3).is_success = false
      ∧ (success_3_u32 v v2 v3).get_success_u32 = none
      ∧ (success_3_u32 v v2 v3).get_success_2_u32 = none
      ∧ (success_3_u32 v v2 v3).get_success_3_u32 = some (v, v2, v3)
      ∧ (success_3_u32 v v2 v3).get_success_u64 = none
      ∧ (success_3_u32 v v2 v3).get_success_u32_u64 = none)
    ∧ ((success_u64 w).get_failure = none
      ∧ (success_u64 w).get_failure_u32 = none
      ∧ (success_u64 w).get_failure_2_u32 = none
      ∧ (success_u64 w).get_failure_u64 = none
      ∧ (success_u64 w).is_success = false
      ∧ (success_u64 w).get_success_u32 = none
      ∧ (success_u64 w).get_success_2_u32 = none
      ∧ (success_u64 w).get_success_3_u32 = none
      ∧ (success_u64 w).get_success_u64 = some w
      ∧ (success_u64 w).get_success_u32_u64 = none)
    ∧ ((success_u32_u64 v w).get_failure = none
      ∧ (success_u32_u64 v w).get_failure_u32 = none
      ∧ (success_u32_u64 v w).get_failure_2_u32 = none
      ∧ (success_u32_u64 v w).get_failure_u64 = none
      ∧ (success_u32_u64 v w).is_success = false
      ∧ (success_u32_u64 v w).get_success_u32 = none
      ∧ (success_u32_u64 v w).get_success_2_u32 = none
      ∧ (success_u32_u64 v w).get_success_3_u32 = none
      ∧ (success_u32_u64 v w).get_success_u64 = none
      ∧ (success_u32_u64 v w).get_success_u32_u64 = some (v, w))
    ∧ ((failure ec).get_failure = some ec
      ∧ (failure ec).get_failure_u32 = none
      ∧ (failure ec).get_failure_2_u32 = none
      ∧ (failure ec).get_failure_u64 = none
      ∧ (failure ec).is_success = false
      ∧ (failure ec).get_success_u32 = none
      ∧ (failure ec).get_success_2_u32 = none
      ∧ (failure ec).get_success_3_u32 = none
      ∧ (failure ec).get_success_u64 = none
      ∧ (failure ec).get_success_u32_u64 = none)
    ∧ ((failure_u32 ec v).get_failure = none
      ∧ (failure_u32 ec v).get_failure_u32 = some (ec, v)
      ∧ (failure_u32 ec v).get_failure_2_u32 = none
      ∧ (failure_u32 ec v).get_failure_u64 = none
      ∧ (failure_u32 ec v).is_success = false
      ∧ (failure_u32 ec v).get_success_u32 = none
      ∧ (failure_u32 ec v).get_success_2_u32 = none
      ∧ (failure_u32 ec v).get_success_3_u32 = none
      ∧ (failure_u32 ec v).get_success_u64 = none
      ∧ (failure_u32 ec v).get_success_u32_u64 = none)
    ∧ ((failure_2_u32 ec v v2).get_failure = none
      ∧ (failure_2_u32 ec v v2).get_failure_u32 = none
      ∧ (failure_2_u32 ec v v2).get_failure_2_u32 = some (ec, v, v2)
      ∧ (failure_2_u32 ec v v2).get_failure_u64 = none
      ∧ (failure_2_u32 ec v v2).is_success = false
      ∧ (failure_2_u32 ec v v2).get_success_u32 = none
      ∧ (failure_2_u32 ec v v2).get_success_2_u32 = none
      ∧ (failure_2_u32 ec v v2).get_success_3_u32 = none
      ∧ (failure_2_u32 ec v v2).get_success_u64 = none
      ∧ (failure_2_u32 ec v v2).get_success_u32_u64 = none)
    ∧ ((failure_u64 ec w).get_failure = none
      ∧ (failure_u64 ec w).get_failure_u32 = none
      ∧ (failure_u64 ec w).get_failure_2_u32 = none
      ∧ (failure_u64 ec w).get_failure_u64 = some (ec, w)
      ∧ (failure_u64 ec w).is_success = false
      ∧ (failure_u64 ec w).get_success_u32 = none
      ∧ (failure_u64 ec w).get_success_2_u32 = none
      ∧ (failure_u64 ec w).get_success_3_u32 = none
      ∧ (failure_u64 ec w).get_success_u64 = none
      ∧ (failure_u64 ec w).get_success_u32_u64 = none) := by
  have hv' := Nat.mod_eq_of_lt hv
  have hv2' := Nat.mod_eq_of_lt hv2
  have hv3' := Nat.mod_eq_of_lt hv3
  have hjoin := u64_join_split_eq w hw
  have hecm := ErrorCode.toNat_mod_u32 ec
  have hec := ErrorCode.fromU32_toNat ec
  simp [success, success_u32, success_2_u32, success_3_u32, success_u64,
    success_u32_u64, failure, failure_u32, failure_2_u32, failure_u64,
    CommandReturn.new, CommandReturn.get_failure, CommandReturn.get_failure_u32,
    CommandReturn.get_failure_2_u32, CommandReturn.get_failure_u64,
    CommandReturn.is_success, CommandReturn.get_success_u32,
    CommandReturn.get_success_2_u32, CommandReturn.get_success_3_u32,
    CommandReturn.get_success_u64, CommandReturn.get_success_u32_u64,
    return_variant.FAILURE, return_variant.FAILURE_U32,
    return_variant.FAILURE_2_U32, return_variant.FAILURE_U64,
    return_variant.SUCCESS, return_variant.SUCCESS_U32,
    return_variant.SUCCESS_2_U32, return_variant.SUCCESS_U64,
    return_variant.SUCCESS_3_U32, return_variant.SUCCESS_U32_U64,
    get_usizes_from_u64, hv', hv2', hv3', hecm, hec, hjoin]

theorem commandreturn_decode_matrix_witness :
    (1 : Nat) < U32_MOD ∧ (2 : Nat) < U32_MOD ∧ (3 : Nat) < U32_MOD
    ∧ (6 : Nat) < U64_MOD
    ∧ (success_2_u32 1 2).get_success_2_u32 = some (1, 2)
    ∧ (success_2_u32 1 2).get_failure = none := by
  have h := commandreturn_decode_matrix ErrorCode.Busy 1 2 3 6
    (by decide) (by decide) (by decide) (by decide)
  exact ⟨by decide, by decide, by decide, by decide,
    h.2.2.1.2.2.2.2.2.2.1, h.2.2.1.1⟩

end LibtockCheri
